import Mathlib

/-!
Verification of the LeOpinion scraping pipeline (checkpoint store, fetch
engine batching, engagement selector, pipeline controller) against its
natural-language specification.

The Python sources are shallowly embedded: dataclasses become structures,
dicts become association lists over a JSON-like value type, raised
exceptions become `Except`/`Option` results, and the mutable
`CheckpointManager` becomes explicit state passing (in-memory state plus
the durable file, both threaded through every operation).
-/

namespace LeOpinion

/-- Values of JSON-serializable Python dicts, as produced by
`CheckpointManager.serialize_tweet` and stored in the checkpoint file.
A Python `datetime` is carried opaquely by `jdt`: the source stores
`created_at.isoformat()` and parses it back with
`datetime.fromisoformat`, which is a faithful round trip, so the model
keeps the instant itself instead of its ISO rendering. -/
inductive JVal where
  | jnull
  | jbool (b : Bool)
  | jint (n : Int)
  | jstr (s : String)
  | jdt (t : Nat)
  | jlist (xs : List JVal)
  | jdict (kvs : List (String × JVal))
deriving Repr

/-- Python dict with string keys, in insertion order. -/
abbrev Dict := List (String × JVal)

/-- Lookup `d.get(k)`: first binding of the key, `none` when absent. -/
def dictGet : Dict → String → Option JVal
  | [], _ => none
  | (k', v) :: rest, k => if k' = k then some v else dictGet rest k

/-- Normalized tweet record (dataclass `ScrapedTweet` of `src/scraper.py`).
`created_at` is the opaque datetime instant (see `JVal.jdt`). -/
structure ScrapedTweet where
  id : Int
  text : String
  username : String
  display_name : String
  created_at : Option Nat
  likes : Int
  retweets : Int
  replies : Int
  views : Option Int
  language : Option String
  is_retweet : Bool
  hashtags : List String := []
  parent_tweet_id : Option Int := none
deriving DecidableEq, Repr

/-- Method `CheckpointManager.serialize_tweet`: a JSON-serializable dict
with one entry per field, optional fields becoming `null`. -/
def serialize_tweet (t : ScrapedTweet) : Dict :=
  [ ("id", .jint t.id),
    ("text", .jstr t.text),
    ("username", .jstr t.username),
    ("display_name", .jstr t.display_name),
    ("created_at", match t.created_at with | some d => .jdt d | none => .jnull),
    ("likes", .jint t.likes),
    ("retweets", .jint t.retweets),
    ("replies", .jint t.replies),
    ("views", match t.views with | some v => .jint v | none => .jnull),
    ("language", match t.language with | some l => .jstr l | none => .jnull),
    ("hashtags", .jlist (t.hashtags.map .jstr)),
    ("is_retweet", .jbool t.is_retweet),
    ("parent_tweet_id", match t.parent_tweet_id with | some p => .jint p | none => .jnull) ]

/-- Required int field `data[k]`: a missing key raises (KeyError), modelled
as `none` of the whole deserialization. -/
def asInt : Option JVal → Option Int
  | some (.jint n) => some n
  | _ => none

/-- Required string field `data[k]`. -/
def asStr : Option JVal → Option String
  | some (.jstr s) => some s
  | _ => none

/-- Required bool field `data[k]`. -/
def asBool : Option JVal → Option Bool
  | some (.jbool b) => some b
  | _ => none

/-- Optional string field via `data.get(k, default)`. -/
def asStrD (dflt : String) : Option JVal → Option String
  | none => some dflt
  | some (.jstr s) => some s
  | _ => none

/-- Optional int field via `data.get(k)`: absent or `null` becomes `none`. -/
def asOptInt : Option JVal → Option (Option Int)
  | none => some none
  | some .jnull => some none
  | some (.jint n) => some (some n)
  | _ => none

/-- Optional string field via `data.get(k)`. -/
def asOptStr : Option JVal → Option (Option String)
  | none => some none
  | some .jnull => some none
  | some (.jstr s) => some (some s)
  | _ => none

/-- Field `created_at`: `datetime.fromisoformat(data["created_at"]) if
data.get("created_at") else None` — absent or `null` yields `none`. -/
def asOptDt : Option JVal → Option (Option Nat)
  | none => some none
  | some .jnull => some none
  | some (.jdt t) => some (some t)
  | _ => none

/-- Elements of the `hashtags` JSON array, all expected to be strings. -/
def strList : List JVal → Option (List String)
  | [] => some []
  | .jstr s :: rest => (strList rest).map (s :: ·)
  | _ => none

/-- Field `hashtags` via `data.get("hashtags", [])`. -/
def asHashtags : Option JVal → Option (List String)
  | none => some []
  | some (.jlist xs) => strList xs
  | _ => none

/-- Method `CheckpointManager.deserialize_tweet`: rebuild a `ScrapedTweet`
from a checkpoint dict; required keys `id`, `text`, `username`, `likes`,
`retweets`, `replies`, `is_retweet` raise when absent (modelled by
`none`), the remaining keys fall back to defaults via `data.get`. -/
def deserialize_tweet (data : Dict) : Option ScrapedTweet := do
  let id ← asInt (dictGet data "id")
  let text ← asStr (dictGet data "text")
  let username ← asStr (dictGet data "username")
  let display_name ← asStrD "Unknown" (dictGet data "display_name")
  let created_at ← asOptDt (dictGet data "created_at")
  let likes ← asInt (dictGet data "likes")
  let retweets ← asInt (dictGet data "retweets")
  let replies ← asInt (dictGet data "replies")
  let views ← asOptInt (dictGet data "views")
  let language ← asOptStr (dictGet data "language")
  let hashtags ← asHashtags (dictGet data "hashtags")
  let is_retweet ← asBool (dictGet data "is_retweet")
  let parent_tweet_id ← asOptInt (dictGet data "parent_tweet_id")
  some { id, text, username, display_name, created_at, likes, retweets,
         replies, views, language, is_retweet, hashtags, parent_tweet_id }

/-! ## Checkpoint state (dataclass `PipelineState` of `src/checkpoint.py`) -/

/-- Dataclass `PipelineState`: the resumable progress record. -/
structure PipelineState where
  run_id : String
  started_at : String
  step1_complete : Bool := false
  step2_complete : Bool := false
  topics_completed : List String := []
  topics_remaining : List String := []
  broad_tweets : List Dict := []
  last_updated : String := ""
  error : String := ""
  retry_counts : List (String × Nat) := []
deriving Repr

/-- Lookup `state.retry_counts.get(topic, 0)`. -/
def rcGet : List (String × Nat) → String → Nat
  | [], _ => 0
  | (k, v) :: rest, t => if k = t then v else rcGet rest t

/-- Assignment `state.retry_counts[topic] = n`: replace in place if the key
exists, append otherwise (Python dicts keep insertion order). -/
def rcSet : List (String × Nat) → String → Nat → List (String × Nat)
  | [], t, n => [(t, n)]
  | (k, v) :: rest, t, n => if k = t then (t, n) :: rest else (k, v) :: rcSet rest t n

/-- Method `CheckpointManager.start_new_run`: fresh state for today, all
topics pending (the wall clock is passed in as `today`/`now`). -/
def start_new_run (topics : List String) (today now : String) : PipelineState :=
  { run_id := today, started_at := now,
    step1_complete := false, step2_complete := false,
    topics_completed := [], topics_remaining := topics,
    broad_tweets := [], last_updated := now, error := "",
    retry_counts := [] }

/-- Method `CheckpointManager.mark_topic_complete` as a state transition
(its `save()` call stamps `last_updated` with the wall clock `now`; the
file write itself is threaded separately by the pipeline model).
Empty results are retried up to 3 times before the topic is
force-completed with zero tweets. -/
def mark_topic_complete (state : PipelineState) (topic : String)
    (tweets : List ScrapedTweet) (now : String) : PipelineState :=
  if tweets = [] ∧ rcGet state.retry_counts topic < 3 then
    { state with
      retry_counts := rcSet state.retry_counts topic (rcGet state.retry_counts topic + 1),
      last_updated := now }
  else
    { state with
      topics_remaining := state.topics_remaining.erase topic,
      topics_completed :=
        if topic ∈ state.topics_completed then state.topics_completed
        else state.topics_completed ++ [topic],
      broad_tweets := state.broad_tweets ++ tweets.map serialize_tweet,
      last_updated := now }

/-- Method `CheckpointManager.get_broad_tweets`: deserialize every
checkpointed tweet dict; a malformed dict raises (modelled by `none`). -/
def get_broad_tweets (state : PipelineState) : Option (List ScrapedTweet) :=
  state.broad_tweets.mapM deserialize_tweet

/-- Method `CheckpointManager.complete_step1`. -/
def complete_step1 (state : PipelineState) (now : String) : PipelineState :=
  { state with step1_complete := true, last_updated := now }

/-- Method `CheckpointManager.complete_step2`. -/
def complete_step2 (state : PipelineState) (now : String) : PipelineState :=
  { state with step2_complete := true, last_updated := now }

/-- Method `CheckpointManager.should_resume`, over the result of `load()`
and the current date string: resume only a same-day checkpoint whose
storage step has not completed. -/
def should_resume (loaded : Option PipelineState) (today : String) : Bool :=
  match loaded with
  | none => false
  | some state =>
    if state.run_id ≠ today then false
    else if state.step2_complete then false
    else true

/-! ## Dates

Python derives `run_id` with `datetime.now().strftime("%Y%m%d")`, an
8-character zero-padded rendering of the calendar date. -/

/-- Calendar date. -/
structure Date where
  y : Nat
  m : Nat
  d : Nat
deriving DecidableEq, Repr

/-- Dates representable by `strftime("%Y%m%d")` without truncation. -/
def Date.Valid (D : Date) : Prop :=
  D.y ≤ 9999 ∧ 1 ≤ D.m ∧ D.m ≤ 12 ∧ 1 ≤ D.d ∧ D.d ≤ 31

instance (D : Date) : Decidable D.Valid := by
  unfold Date.Valid; infer_instance

/-- Rendering `strftime("%Y%m%d")`: four year digits, two month digits,
two day digits, zero padded. -/
def dateId (D : Date) : String :=
  String.mk
    [ Nat.digitChar (D.y / 1000 % 10), Nat.digitChar (D.y / 100 % 10),
      Nat.digitChar (D.y / 10 % 10), Nat.digitChar (D.y % 10),
      Nat.digitChar (D.m / 10 % 10), Nat.digitChar (D.m % 10),
      Nat.digitChar (D.d / 10 % 10), Nat.digitChar (D.d % 10) ]

/-! ## Loading the checkpoint file (`CheckpointManager.load`)

`load()` turns an absent file into `none`, and wraps `json.load` plus
`PipelineState(**data)` in a blanket exception handler that also returns
`none`. The file content is modelled as `Option (Except String JVal)`:
`none` is a missing file, `Except.error` is text `json.load` cannot
parse, `Except.ok v` is a parsed JSON value `v`. -/

/-- Decoded `topics_completed` / `topics_remaining` lists. -/
def asTopicsD : Option JVal → Option (List String)
  | none => some []
  | some (.jlist xs) => strList xs
  | _ => none

/-- Decoded `broad_tweets`: a JSON array of dicts. -/
def dictList : List JVal → Option (List Dict)
  | [] => some []
  | .jdict kvs :: rest => (dictList rest).map (kvs :: ·)
  | _ => none

/-- Decoded `broad_tweets` field with its dataclass default. -/
def asBroadD : Option JVal → Option (List Dict)
  | none => some []
  | some (.jlist xs) => dictList xs
  | _ => none

/-- Decoded `retry_counts`: a JSON object of non-negative counters. -/
def natPairs : List (String × JVal) → Option (List (String × Nat))
  | [] => some []
  | (k, .jint n) :: rest =>
    if n < 0 then none else (natPairs rest).map ((k, n.toNat) :: ·)
  | _ => none

/-- Decoded `retry_counts` field with its dataclass default. -/
def asRetryD : Option JVal → Option (List (String × Nat))
  | none => some []
  | some (.jdict kvs) => natPairs kvs
  | _ => none

/-- Optional bool field with a dataclass default. -/
def asBoolD (dflt : Bool) : Option JVal → Option Bool
  | none => some dflt
  | some (.jbool b) => some b
  | _ => none

/-- Field names accepted by `PipelineState(**data)`; any other key raises
`TypeError`. -/
def stateFields : List String :=
  [ "run_id", "started_at", "step1_complete", "step2_complete",
    "topics_completed", "topics_remaining", "broad_tweets",
    "last_updated", "error", "retry_counts" ]

/-- Constructor call `PipelineState(**data)` on a parsed JSON value:
fails unless the value is an object with only known keys, the required
fields present and every field well formed. -/
def pipelineStateOfJVal : JVal → Option PipelineState
  | .jdict kvs =>
    if kvs.all (fun kv => kv.1 ∈ stateFields) then do
      let run_id ← asStr (dictGet kvs "run_id")
      let started_at ← asStr (dictGet kvs "started_at")
      let step1_complete ← asBoolD false (dictGet kvs "step1_complete")
      let step2_complete ← asBoolD false (dictGet kvs "step2_complete")
      let topics_completed ← asTopicsD (dictGet kvs "topics_completed")
      let topics_remaining ← asTopicsD (dictGet kvs "topics_remaining")
      let broad_tweets ← asBroadD (dictGet kvs "broad_tweets")
      let last_updated ← asStrD "" (dictGet kvs "last_updated")
      let error ← asStrD "" (dictGet kvs "error")
      let retry_counts ← asRetryD (dictGet kvs "retry_counts")
      some { run_id, started_at, step1_complete, step2_complete,
             topics_completed, topics_remaining, broad_tweets,
             last_updated, error, retry_counts }
    else none
  | _ => none

/-- Method `CheckpointManager.load`: missing file, unparseable text and
malformed records all fall back to `none` instead of raising. -/
def load (content : Option (Except String JVal)) : Option PipelineState :=
  match content with
  | none => none
  | some (.error _) => none
  | some (.ok v) => pipelineStateOfJVal v

/-! ## Engagement selector (`TwitterScraper.fetch_replies_for_top_tweets`)

Python ranks with `sorted(tweets, key=lambda t: t.likes + t.retweets,
reverse=True)`, a stable descending sort. `List.insertionSort` with the
relation below produces the identical list: both are stable sorts by the
same key, and a stable sort's output is unique. -/

/-- Engagement score `likes + retweets`. -/
def engagement (t : ScrapedTweet) : Int :=
  t.likes + t.retweets

/-- Comparator of the descending engagement sort: `a` may precede `b`. -/
def engGE (a b : ScrapedTweet) : Prop :=
  engagement b ≤ engagement a

instance : DecidableRel engGE := fun a b =>
  inferInstanceAs (Decidable (engagement b ≤ engagement a))

instance : IsTotal ScrapedTweet engGE :=
  ⟨fun a b => le_total (engagement b) (engagement a)⟩

instance : IsTrans ScrapedTweet engGE :=
  ⟨fun _ _ _ h1 h2 => le_trans h2 h1⟩

/-- Expression `sorted(tweets, key=..., reverse=True)`. -/
def sortByEngagement (tweets : List ScrapedTweet) : List ScrapedTweet :=
  tweets.insertionSort engGE

/-- Top-tweet selection of `fetch_replies_for_top_tweets`: the empty input
returns immediately, otherwise the first `top_n` of the sorted list. -/
def topTweets (tweets : List ScrapedTweet) (top_n : Nat) : List ScrapedTweet :=
  if tweets = [] then [] else (sortByEngagement tweets).take top_n

/-- Method `TwitterScraper.fetch_replies_for_top_tweets` with the reply
collaborator (`fetch_replies`, already recovered to a plain list per
tweet) abstracted as `fetch`: one invocation per selected tweet, results
concatenated in selection order. -/
def fetch_replies_for_top_tweets (fetch : Int → List ScrapedTweet)
    (tweets : List ScrapedTweet) (top_n : Nat) : List ScrapedTweet :=
  (topTweets tweets top_n).flatMap (fun t => fetch t.id)

/-! ## Fetch engine batching (`TwitterScraper.get_broad_tweets_incremental`)

The batch/worker-slot schedule of the incremental fetch loop, isolated
from the network: which worker slots each batch uses and which topics it
contains. `statsActive` is `stats.get("active", 1)` before the default is
applied: `none` when the collaborator reports no `active` entry. With
`active_count = 0` the first loop iteration evaluates
`(batch_number * workers_per_batch) % total_slots` with
`total_slots = 0`, which raises `ZeroDivisionError` in Python. -/

/-- Worker slots of batch `k`:
`base = (k * workers_per_batch) % total_slots` and slot `i` is
`(base + i) % total_slots`. Only evaluated with `total_slots > 0`. -/
def batchSlots (workers_per_batch total_slots k : Nat) : List Nat :=
  (List.range workers_per_batch).map
    (fun i => ((k * workers_per_batch) % total_slots + i) % total_slots)

/-- Batches of the while loop from batch number `k` on: each batch takes
the next `wb` topics. The recursion consumes `(t :: rest).drop wb`,
written `rest.drop (wb - 1)`; the loop only runs with `wb ≥ 1`. -/
def scheduleAux (wb ts : Nat) (k : Nat) : List String → List (List Nat × List String)
  | [] => []
  | t :: rest =>
    (batchSlots wb ts k, (t :: rest).take wb) :: scheduleAux wb ts (k + 1) (rest.drop (wb - 1))
termination_by rem => rem.length
decreasing_by simp only [List.length_drop, List.length_cons]; omega

/-- Batch schedule of `get_broad_tweets_incremental` over the remaining
(not skipped) topics: empty input returns at once; otherwise
`active_count = stats.get("active", 1)`, `workers_per_batch =
min(active_count, 2)`, and a reported count of zero makes the first
iteration raise `ZeroDivisionError`. -/
def incrementalBatches (statsActive : Option Nat) (remaining : List String) :
    Except String (List (List Nat × List String)) :=
  if remaining = [] then .ok []
  else
    let active_count := statsActive.getD 1
    let workers_per_batch := min active_count 2
    if active_count = 0 then .error "ZeroDivisionError"
    else .ok (scheduleAux workers_per_batch active_count 0 remaining)

/-! ## Pipeline controller (`run_pipeline` of `src/main.py`)

The controller is embedded over an environment of collaborator results.
Operations that the source wraps in blanket `except Exception` handlers
(per-topic search, per-thread reply fetch, `fix_locks`) can only
propagate `KeyboardInterrupt`, so their environment entries fail with
`Except.error ()`; operations outside such handlers fail with an
arbitrary exception. -/

/-- Python exceptions distinguished by the controller. -/
inductive Exc where
  | interrupt
  | attributeError (msg : String)
  | failure (msg : String)
deriving DecidableEq, Repr

/-- Rendering `str(e)` for `checkpoint.set_error`. -/
def excMsg : Exc → String
  | .interrupt => "KeyboardInterrupt"
  | .attributeError m => m
  | .failure m => m

/-- Collaborator results for one pipeline run. `initialFile` is the result
of loading the checkpoint file; `accountStats` gives the `active` /
`total` entries of the pool stats dict (`none` for a missing key);
`searchTopic` and `fetchReplies` recover generic failures internally and
can only raise an interrupt. -/
structure Env where
  configErrors : List String
  initialFile : Option PipelineState
  today : String
  now : String
  broadTopics : List String
  topN : Nat
  fixLocks : Except Unit Unit
  storeInit : Except Exc Unit
  accountStats : Except Exc (Option Nat × Option Nat)
  searchTopic : String → Except Unit (List ScrapedTweet)
  fetchReplies : Int → Except Unit (List ScrapedTweet)
  storeTweets : List ScrapedTweet → String → Except Exc Nat
  completeRun : Except Exc Nat
  getRunCount : Except Exc Nat

/-- Outcome of a run: the final durable checkpoint file and either a
propagated exception or the returned boolean. -/
structure RunResult where
  file : Option PipelineState
  result : Except Exc Bool
deriving Repr

/-- Checkpoint state after resume-or-start: the loaded state when
`should_resume` accepts it, a fresh run otherwise; either way the
durable file then holds exactly this state. -/
def initialState (env : Env) : PipelineState :=
  match env.initialFile with
  | some s =>
    if should_resume (some s) env.today then s
    else start_new_run env.broadTopics env.today env.now
  | none => start_new_run env.broadTopics env.today env.now

/-- Pipeline prefix before the `try` block: config validation,
resume-or-start, `fix_locks`, store creation plus `start_run`, and the
account availability check. `Except.error` carries an early exit (a
returned failure or an uncaught raise); `Except.ok` carries the
checkpoint file and state entering the `try` block. -/
def preBody (env : Env) : Except RunResult (Option PipelineState × PipelineState) :=
  if env.configErrors ≠ [] then .error ⟨env.initialFile, .ok false⟩
  else
    let fs : Option PipelineState × PipelineState :=
      (some (initialState env), initialState env)
    match env.fixLocks with
    | .error () => .error ⟨fs.1, .error .interrupt⟩
    | .ok () =>
    match env.storeInit with
    | .error e => .error ⟨fs.1, .error e⟩
    | .ok () =>
    match env.accountStats with
    | .error .interrupt => .error ⟨fs.1, .error .interrupt⟩
    | .error _ => .ok fs
    | .ok (_, totalOpt) =>
      if totalOpt.getD 0 = 0 then .error ⟨fs.1, .ok false⟩
      else .ok fs

/-- Topic loop of `get_broad_tweets_incremental` with the checkpoint
callback wired in: per topic, search (generic failures are already
recovered to `[]` inside `search_tweets`), extend the accumulator and
fire `mark_topic_complete`, which saves. Batch grouping only affects
interleaving, which this model serializes in topic order. -/
def runTopics (env : Env) : Option PipelineState → PipelineState → List ScrapedTweet →
    List String → Option PipelineState × PipelineState × Except Exc (List ScrapedTweet)
  | file, st, acc, [] => (file, st, .ok acc)
  | file, st, acc, t :: rest =>
    match env.searchTopic t with
    | .error () => (file, st, .error .interrupt)
    | .ok tws =>
      let st' := mark_topic_complete st t tws env.now
      runTopics env (some st') st' (acc ++ tws) rest

/-- Step 1 of the `try` block: unless already complete, scrape the
remaining topics via `get_broad_tweets_incremental` (which first
re-queries account stats, and whose loop raises `ZeroDivisionError` when
zero active accounts are reported), then mark step 1 done; yields the
combined checkpoint-plus-fresh tweet list. -/
def step1 (env : Env) (file : Option PipelineState) (st : PipelineState) :
    Option PipelineState × PipelineState × Except Exc (List ScrapedTweet) :=
  if st.step1_complete then
    match get_broad_tweets st with
    | none => (file, st, .error (.failure "KeyError"))
    | some tws => (file, st, .ok tws)
  else
    let existingResult : Except Exc (List ScrapedTweet) :=
      if st.topics_completed = [] then .ok []
      else
        match get_broad_tweets st with
        | none => .error (.failure "KeyError")
        | some tws => .ok tws
    match existingResult with
    | .error e => (file, st, .error e)
    | .ok existing =>
      let remaining := env.broadTopics.filter (fun t => t ∉ st.topics_completed)
      if remaining = [] then
        let st' := complete_step1 st env.now
        (some st', st', .ok existing)
      else
        match env.accountStats with
        | .error e => (file, st, .error e)
        | .ok (activeOpt, _) =>
          if activeOpt.getD 1 = 0 then
            (file, st, .error (.failure "ZeroDivisionError"))
          else
            match runTopics env file st [] remaining with
            | (file', st', .error e) => (file', st', .error e)
            | (_file', st', .ok newTweets) =>
              let st2 := complete_step1 st' env.now
              (some st2, st2, .ok (existing ++ newTweets))

/-- Reply loop of `fetch_replies_for_top_tweets`: sequential fetches over
the selected tweets, generic failures recovered to `[]` inside
`fetch_replies`, only an interrupt escapes. -/
def fetchRepliesLoop (env : Env) : List ScrapedTweet → List ScrapedTweet →
    Except Exc (List ScrapedTweet)
  | [], acc => .ok acc
  | t :: rest, acc =>
    match env.fetchReplies t.id with
    | .error () => .error .interrupt
    | .ok rs => fetchRepliesLoop env rest (acc ++ rs)

/-- Step 3 of the `try` block: group the checkpointed tweets and store.
The grouping loop calls `checkpoint._deserialize_tweet(tweet_data)`, an
attribute that does not exist on `CheckpointManager` (the method is named
`deserialize_tweet`), so its first iteration raises `AttributeError`;
only with no checkpointed tweets does the loop body never run, in which
case the topic map stays empty and storing proceeds with the replies
alone, followed by `complete_run` and `complete_step2`. -/
def step3 (env : Env) (file : Option PipelineState) (st : PipelineState)
    (replyTweets : List ScrapedTweet) :
    Option PipelineState × PipelineState × Except Exc Nat :=
  if st.step2_complete then
    match env.getRunCount with
    | .error e => (file, st, .error e)
    | .ok count => (file, st, .ok count)
  else
    if st.broad_tweets.isEmpty then
      let storeReplies : Except Exc Nat :=
        if replyTweets = [] then .ok 0
        else env.storeTweets replyTweets "replies"
      match storeReplies with
      | .error e => (file, st, .error e)
      | .ok _ =>
        match env.completeRun with
        | .error e => (file, st, .error e)
        | .ok count =>
          let st' := complete_step2 st env.now
          (some st', st', .ok count)
    else
      (file, st,
        .error (.attributeError "CheckpointManager object has no attribute _deserialize_tweet"))

/-- Body of the `try` block: step 1 (scrape), the empty-result failure,
step 2 (replies), step 3 (store), then `checkpoint.clear()`. Returns the
final durable file, the in-memory state handle (`none` after `clear()`)
and the outcome. -/
def runBody (env : Env) (file : Option PipelineState) (st : PipelineState) :
    (Option PipelineState × Option PipelineState) × Except Exc Bool :=
  match step1 env file st with
  | (file1, st1, .error e) => ((file1, some st1), .error e)
  | (file1, st1, .ok broadTweets) =>
    if broadTweets = [] then ((file1, some st1), .ok false)
    else
      match fetchRepliesLoop env (topTweets broadTweets env.topN) [] with
      | .error e => ((file1, some st1), .error e)
      | .ok replyTweets =>
        match step3 env file1 st1 replyTweets with
        | (file3, st3, .error e) => ((file3, some st3), .error e)
        | (_file3, _st3, .ok _count) => ((none, none), .ok true)

/-- Exception handlers of `run_pipeline`: `KeyboardInterrupt` is re-raised
untouched; any other exception is recorded via `checkpoint.set_error`
(which saves when an in-memory state exists) and converted to a `False`
result. -/
def handleBody (now : String)
    (out : (Option PipelineState × Option PipelineState) × Except Exc Bool) : RunResult :=
  match out with
  | ((file, _), .ok b) => ⟨file, .ok b⟩
  | ((file, _), .error .interrupt) => ⟨file, .error .interrupt⟩
  | ((file, mem), .error e) =>
    match mem with
    | some s => ⟨some { s with error := excMsg e, last_updated := now }, .ok false⟩
    | none => ⟨file, .ok false⟩

/-- Function `run_pipeline` of `src/main.py`. -/
def run_pipeline (env : Env) : RunResult :=
  match preBody env with
  | .error r => r
  | .ok (file, st) => handleBody env.now (runBody env file st)

/-! ## Concrete fixtures -/

/-- Sample tweet with a chosen id and engagement counts. -/
def mkTweet (id likes retweets : Int) : ScrapedTweet :=
  { id := id, text := "t", username := "u", display_name := "U",
    created_at := some 0, likes := likes, retweets := retweets,
    replies := 0, views := some 1, language := some "en",
    is_retweet := false, hashtags := ["x"], parent_tweet_id := none }

/-- Sample reply tweet pointing at a parent id. -/
def mkReply (id pid : Int) : ScrapedTweet :=
  { mkTweet id 0 0 with parent_tweet_id := some pid }

/-- A sequence of `mark_topic_complete` calls applied in order. -/
def applyCalls (calls : List (String × List ScrapedTweet)) (now : String)
    (s : PipelineState) : PipelineState :=
  calls.foldl (fun st c => mark_topic_complete st c.1 c.2 now) s

/-- Checkpoint invariant tying a state to the original topic list:
completed and remaining are disjoint, cover exactly the original topics,
and remaining stays duplicate free. -/
def TopicsInv (topics : List String) (s : PipelineState) : Prop :=
  (∀ x, x ∈ s.topics_completed → x ∉ s.topics_remaining) ∧
  (∀ x, (x ∈ s.topics_completed ∨ x ∈ s.topics_remaining) ↔ x ∈ topics) ∧
  s.topics_remaining.Nodup

/-- Environment of the spec's full happy path: fresh run, topics `a` and
`b` with three tweets each on the first attempt, two reply expansions,
storage succeeding. -/
def happyEnv : Env :=
  { configErrors := []
    initialFile := none
    today := "20251012"
    now := "2025-10-12T00:00:00"
    broadTopics := ["a", "b"]
    topN := 2
    fixLocks := .ok ()
    storeInit := .ok ()
    accountStats := .ok (some 2, some 2)
    searchTopic := fun t =>
      if t = "a" then .ok [mkTweet 1 10 0, mkTweet 2 20 10, mkTweet 3 0 5]
      else .ok [mkTweet 4 50 0, mkTweet 5 1 1, mkTweet 6 0 0]
    fetchReplies := fun pid => .ok [mkReply (100 + pid) pid]
    storeTweets := fun tws _topic => .ok tws.length
    completeRun := .ok 8
    getRunCount := .ok 8 }

/-- Checkpoint state after marking topic `a` complete twice on a run whose
topic list contains `a` twice. -/
def dupRunState : PipelineState :=
  mark_topic_complete (start_new_run ["a", "a"] "20251012" "ts") "a"
    [mkTweet 1 0 0] "ts"

/-- Happy-path environment whose reply collaborator is interrupted by the
operator. -/
def interruptEnv : Env :=
  { happyEnv with fetchReplies := fun _ => .error () }

/-! ## Theorems -/

/-- Helper: the serialized hashtag array decodes to the original list. -/
theorem strList_map_jstr (l : List String) : strList (l.map JVal.jstr) = some l := by
  induction l with
  | nil => rfl
  | cons s rest ih => simp [strList, ih]

/-- C10. `mark_topic_complete` with non-empty items always appends every
item to the collected list — also when the topic is already completed and
gone from remaining — so a repeated call stores the items twice. -/
theorem claim_c10 (st : PipelineState) (topic : String)
    (tweets : List ScrapedTweet) (now now' : String) (h : tweets ≠ []) :
    (mark_topic_complete st topic tweets now).broad_tweets
      = st.broad_tweets ++ tweets.map serialize_tweet
    ∧ (mark_topic_complete (mark_topic_complete st topic tweets now) topic tweets now').broad_tweets
      = st.broad_tweets ++ tweets.map serialize_tweet ++ tweets.map serialize_tweet := by
  constructor <;> simp [mark_topic_complete, h]

/-- C10 witness at a concrete already-completed state. -/
theorem claim_c10_witness :
    (mark_topic_complete (start_new_run ["a"] "20251012" "ts") "a" [mkTweet 1 2 3] "ts").broad_tweets
      = (start_new_run ["a"] "20251012" "ts").broad_tweets ++ [mkTweet 1 2 3].map serialize_tweet
    ∧ (mark_topic_complete
          (mark_topic_complete (start_new_run ["a"] "20251012" "ts") "a" [mkTweet 1 2 3] "ts")
          "a" [mkTweet 1 2 3] "ts").broad_tweets
      = (start_new_run ["a"] "20251012" "ts").broad_tweets
          ++ [mkTweet 1 2 3].map serialize_tweet ++ [mkTweet 1 2 3].map serialize_tweet :=
  claim_c10 (start_new_run ["a"] "20251012" "ts") "a" [mkTweet 1 2 3] "ts" "ts" (by decide)

/-- C2. On a fresh run, three empty completions leave the topic pending
with three recorded retries and nothing collected; the fourth empty
completion force-completes it, removing it from the pending list and
still collecting nothing. -/
theorem claim_c2 (topics : List String) (t : String) (today now : String)
    (ht : t ∈ topics) :
    ((mark_topic_complete (mark_topic_complete
          (mark_topic_complete (start_new_run topics today now) t [] now)
          t [] now) t [] now).topics_remaining = topics
      ∧ t ∈ (mark_topic_complete (mark_topic_complete
          (mark_topic_complete (start_new_run topics today now) t [] now)
          t [] now) t [] now).topics_remaining
      ∧ rcGet (mark_topic_complete (mark_topic_complete
          (mark_topic_complete (start_new_run topics today now) t [] now)
          t [] now) t [] now).retry_counts t = 3
      ∧ (mark_topic_complete (mark_topic_complete
          (mark_topic_complete (start_new_run topics today now) t [] now)
          t [] now) t [] now).broad_tweets = []
      ∧ (mark_topic_complete (mark_topic_complete
          (mark_topic_complete (start_new_run topics today now) t [] now)
          t [] now) t [] now).topics_completed = [])
    ∧ (t ∈ (mark_topic_complete (mark_topic_complete (mark_topic_complete
          (mark_topic_complete (start_new_run topics today now) t [] now)
          t [] now) t [] now) t [] now).topics_completed
      ∧ (mark_topic_complete (mark_topic_complete (mark_topic_complete
          (mark_topic_complete (start_new_run topics today now) t [] now)
          t [] now) t [] now) t [] now).topics_remaining = topics.erase t
      ∧ (mark_topic_complete (mark_topic_complete (mark_topic_complete
          (mark_topic_complete (start_new_run topics today now) t [] now)
          t [] now) t [] now) t [] now).broad_tweets = []) := by
  refine ⟨⟨?_, ?_, ?_, ?_, ?_⟩, ?_, ?_, ?_⟩ <;>
    simp [start_new_run, mark_topic_complete, rcGet, rcSet, ht]

/-- C2 witness on the topic list `["a", "b"]`. -/
theorem claim_c2_witness :
    ((mark_topic_complete (mark_topic_complete
          (mark_topic_complete (start_new_run ["a", "b"] "20251012" "ts") "a" [] "ts")
          "a" [] "ts") "a" [] "ts").topics_remaining = ["a", "b"]
      ∧ "a" ∈ (mark_topic_complete (mark_topic_complete
          (mark_topic_complete (start_new_run ["a", "b"] "20251012" "ts") "a" [] "ts")
          "a" [] "ts") "a" [] "ts").topics_remaining
      ∧ rcGet (mark_topic_complete (mark_topic_complete
          (mark_topic_complete (start_new_run ["a", "b"] "20251012" "ts") "a" [] "ts")
          "a" [] "ts") "a" [] "ts").retry_counts "a" = 3
      ∧ (mark_topic_complete (mark_topic_complete
          (mark_topic_complete (start_new_run ["a", "b"] "20251012" "ts") "a" [] "ts")
          "a" [] "ts") "a" [] "ts").broad_tweets = []
      ∧ (mark_topic_complete (mark_topic_complete
          (mark_topic_complete (start_new_run ["a", "b"] "20251012" "ts") "a" [] "ts")
          "a" [] "ts") "a" [] "ts").topics_completed = [])
    ∧ ("a" ∈ (mark_topic_complete (mark_topic_complete (mark_topic_complete
          (mark_topic_complete (start_new_run ["a", "b"] "20251012" "ts") "a" [] "ts")
          "a" [] "ts") "a" [] "ts") "a" [] "ts").topics_completed
      ∧ (mark_topic_complete (mark_topic_complete (mark_topic_complete
          (mark_topic_complete (start_new_run ["a", "b"] "20251012" "ts") "a" [] "ts")
          "a" [] "ts") "a" [] "ts") "a" [] "ts").topics_remaining
            = (["a", "b"] : List String).erase "a"
      ∧ (mark_topic_complete (mark_topic_complete (mark_topic_complete
          (mark_topic_complete (start_new_run ["a", "b"] "20251012" "ts") "a" [] "ts")
          "a" [] "ts") "a" [] "ts") "a" [] "ts").broad_tweets = []) :=
  claim_c2 ["a", "b"] "a" "20251012" "ts" (by decide)

/-- C5. Serialization round trip: `deserialize_tweet` inverts
`serialize_tweet` for every tweet — optional fields present or absent —
and a payload with no `parent_tweet_id` key at all deserializes with
`parent_tweet_id = none`. -/
theorem claim_c5 (t : ScrapedTweet) :
    deserialize_tweet (serialize_tweet t) = some t
    ∧ deserialize_tweet
        ((serialize_tweet t).filter (fun kv => decide (kv.1 ≠ "parent_tweet_id")))
      = some { t with parent_tweet_id := none } := by
  obtain ⟨id, text, username, dn, ca, likes, rts, rps, vs, lang, irt, hts, pid⟩ := t
  constructor <;>
    cases ca <;> cases vs <;> cases lang <;> cases pid <;>
      simp [serialize_tweet, deserialize_tweet, dictGet, asInt, asStr, asStrD,
            asOptDt, asOptInt, asOptStr, asHashtags, asBool, strList_map_jstr]

/-- C9. `load` returns `none` for a missing file and for every content the
deserialization rejects, and only ever returns a state that parsed
cleanly — a corrupt checkpoint is never fatal. -/
theorem claim_c9 :
    load none = none
    ∧ (∀ e, load (some (.error e)) = none)
    ∧ (∀ v, pipelineStateOfJVal v = none → load (some (.ok v)) = none)
    ∧ (∀ c s, load c = some s → ∃ v, c = some (.ok v) ∧ pipelineStateOfJVal v = some s) := by
  refine ⟨rfl, fun e => rfl, fun v h => by simpa [load] using h, ?_⟩
  intro c s h
  match c with
  | none => exact absurd h (by simp [load])
  | some (.error e) => exact absurd h (by simp [load])
  | some (.ok v) => exact ⟨v, rfl, h⟩

/-- C9 witness: a present but non-object checkpoint file loads as `none`. -/
theorem claim_c9_witness :
    load (some (Except.ok (JVal.jstr "not a checkpoint"))) = none ∧ load none = none :=
  ⟨claim_c9.2.2.1 (JVal.jstr "not a checkpoint") rfl, claim_c9.1⟩

/-- Helper: `Nat.digitChar` is injective below 10. -/
theorem digitChar_inj_lt (a b : Nat) (ha : a < 10) (hb : b < 10)
    (h : Nat.digitChar a = Nat.digitChar b) : a = b := by
  interval_cases a <;> interval_cases b <;> revert h <;> decide

/-- Helper: the `%Y%m%d` rendering is injective on valid dates. -/
theorem dateId_inj (D D' : Date) (hD : D.Valid) (hD' : D'.Valid)
    (h : dateId D = dateId D') : D = D' := by
  obtain ⟨y, m, d⟩ := D
  obtain ⟨y', m', d'⟩ := D'
  simp only [Date.Valid] at hD hD'
  have hdata := congrArg String.data h
  simp only [dateId, List.cons.injEq, and_true] at hdata
  obtain ⟨h1, h2, h3, h4, h5, h6, h7, h8⟩ := hdata
  have ten : (0 : Nat) < 10 := by norm_num
  have e1 := digitChar_inj_lt _ _ (Nat.mod_lt _ ten) (Nat.mod_lt _ ten) h1
  have e2 := digitChar_inj_lt _ _ (Nat.mod_lt _ ten) (Nat.mod_lt _ ten) h2
  have e3 := digitChar_inj_lt _ _ (Nat.mod_lt _ ten) (Nat.mod_lt _ ten) h3
  have e4 := digitChar_inj_lt _ _ (Nat.mod_lt _ ten) (Nat.mod_lt _ ten) h4
  have e5 := digitChar_inj_lt _ _ (Nat.mod_lt _ ten) (Nat.mod_lt _ ten) h5
  have e6 := digitChar_inj_lt _ _ (Nat.mod_lt _ ten) (Nat.mod_lt _ ten) h6
  have e7 := digitChar_inj_lt _ _ (Nat.mod_lt _ ten) (Nat.mod_lt _ ten) h7
  have e8 := digitChar_inj_lt _ _ (Nat.mod_lt _ ten) (Nat.mod_lt _ ten) h8
  simp only [Date.mk.injEq]
  refine ⟨by omega, by omega, by omega⟩

/-- C3. `should_resume` is true exactly when a checkpoint loads, carries
today's date id and has an incomplete storage step; a step-2-incomplete
checkpoint saved on day `D` resumes on day `D` and on no other valid day;
a storage-complete checkpoint never resumes. -/
theorem claim_c3 :
    (∀ (loaded : Option PipelineState) (today : String),
        should_resume loaded today = true ↔
          ∃ s, loaded = some s ∧ s.run_id = today ∧ s.step2_complete = false)
    ∧ (∀ (s : PipelineState) (D D' : Date), D.Valid → D'.Valid →
        s.run_id = dateId D → s.step2_complete = false →
        should_resume (some s) (dateId D) = true
        ∧ (D ≠ D' → should_resume (some s) (dateId D') = false))
    ∧ (∀ (s : PipelineState) (today : String), s.step2_complete = true →
        should_resume (some s) today = false) := by
  have hiff : ∀ (loaded : Option PipelineState) (today : String),
      should_resume loaded today = true ↔
        ∃ s, loaded = some s ∧ s.run_id = today ∧ s.step2_complete = false := by
    intro loaded today
    match loaded with
    | none => simp [should_resume]
    | some s =>
      simp only [should_resume]
      constructor
      · intro h
        refine ⟨s, rfl, ?_, ?_⟩ <;> by_cases h1 : s.run_id = today <;>
          by_cases h2 : s.step2_complete <;> simp_all
      · rintro ⟨s', hs', h1, h2⟩
        cases hs'
        simp [h1, h2]
  refine ⟨hiff, ?_, ?_⟩
  · intro s D D' hD hD' hrun h2
    constructor
    · exact (hiff (some s) (dateId D)).mpr ⟨s, rfl, hrun, h2⟩
    · intro hne
      cases hb : should_resume (some s) (dateId D') with
      | false => rfl
      | true =>
        obtain ⟨s', hs', h1, _⟩ := (hiff (some s) (dateId D')).mp hb
        cases hs'
        exact absurd (dateId_inj D D' hD hD' (hrun ▸ h1)) hne
  · intro s today h2
    simp [should_resume, h2]

/-- C3 witness: a fresh checkpoint for 2025-10-12 resumes that day and not
on 2025-10-13. -/
theorem claim_c3_witness :
    should_resume (some (start_new_run ["a"] (dateId ⟨2025, 10, 12⟩) "ts"))
        (dateId ⟨2025, 10, 12⟩) = true
    ∧ should_resume (some (start_new_run ["a"] (dateId ⟨2025, 10, 12⟩) "ts"))
        (dateId ⟨2025, 10, 13⟩) = false := by
  have h := claim_c3.2.1 (start_new_run ["a"] (dateId ⟨2025, 10, 12⟩) "ts")
    ⟨2025, 10, 12⟩ ⟨2025, 10, 13⟩ (by decide) (by decide) rfl rfl
  exact ⟨h.1, h.2 (by decide)⟩

/-- Helper: a fresh run satisfies the topic-set invariant when the topic
list has no duplicates. -/
theorem topicsInv_start (topics : List String) (today now : String)
    (h : topics.Nodup) : TopicsInv topics (start_new_run topics today now) := by
  refine ⟨?_, ?_, ?_⟩ <;> simp [start_new_run, TopicsInv, h]

/-- Helper: `mark_topic_complete` preserves the topic-set invariant for
topics drawn from the original list. -/
theorem topicsInv_step (topics : List String) (s : PipelineState)
    (t : String) (tws : List ScrapedTweet) (now : String)
    (ht : t ∈ topics) (hinv : TopicsInv topics s) :
    TopicsInv topics (mark_topic_complete s t tws now) := by
  obtain ⟨hdisj, hun, hnd⟩ := hinv
  unfold mark_topic_complete
  split_ifs with hretry hc
  · exact ⟨hdisj, hun, hnd⟩
  · refine ⟨?_, ?_, hnd.erase t⟩
    · intro x hx hmem
      exact hdisj x hx (List.mem_of_mem_erase hmem)
    · intro x
      constructor
      · rintro (hx | hx)
        · exact (hun x).mp (Or.inl hx)
        · exact (hun x).mp (Or.inr (List.mem_of_mem_erase hx))
      · intro hx
        rcases (hun x).mpr hx with hx' | hx'
        · exact Or.inl hx'
        · by_cases hxt : x = t
          · exact Or.inl (hxt ▸ hc)
          · exact Or.inr ((List.mem_erase_of_ne hxt).mpr hx')
  · refine ⟨?_, ?_, hnd.erase t⟩
    · intro x hx hmem
      rcases List.mem_append.mp hx with hx' | hx'
      · exact hdisj x hx' (List.mem_of_mem_erase hmem)
      · have hxt : x = t := by simpa using hx'
        subst hxt
        exact absurd ((hnd.mem_erase_iff).mp hmem).1 (by simp)
    · intro x
      constructor
      · rintro (hx | hx)
        · rcases List.mem_append.mp hx with hx' | hx'
          · exact (hun x).mp (Or.inl hx')
          · have hxt : x = t := by simpa using hx'
            exact hxt ▸ ht
        · exact (hun x).mp (Or.inr (List.mem_of_mem_erase hx))
      · intro hx
        rcases (hun x).mpr hx with hx' | hx'
        · exact Or.inl (List.mem_append.mpr (Or.inl hx'))
        · by_cases hxt : x = t
          · exact Or.inl (List.mem_append.mpr (Or.inr (by simp [hxt])))
          · exact Or.inr ((List.mem_erase_of_ne hxt).mpr hx')

/-- Helper: the invariant survives any sequence of calls whose topics come
from the original list. -/
theorem topicsInv_applyCalls (topics : List String) (now : String)
    (calls : List (String × List ScrapedTweet)) :
    ∀ (s : PipelineState), TopicsInv topics s → (∀ c ∈ calls, c.1 ∈ topics) →
      TopicsInv topics (applyCalls calls now s) := by
  induction calls with
  | nil => intro s hs _; exact hs
  | cons c rest ih =>
    intro s hs hc
    exact ih (mark_topic_complete s c.1 c.2 now)
      (topicsInv_step topics s c.1 c.2 now (hc c (by simp)) hs)
      (fun c' hc' => hc c' (by simp [hc']))

/-- C4 (amended: the original topic list must be duplicate free). After
`start_new_run`, every sequence of `mark_topic_complete` calls with
topics drawn from the original list keeps `topics_completed` and
`topics_remaining` disjoint with union exactly the original topic set. -/
theorem claim_c4_amended (topics : List String) (today now : String)
    (calls : List (String × List ScrapedTweet)) (hnd : topics.Nodup)
    (hcalls : ∀ c ∈ calls, c.1 ∈ topics) :
    (∀ x, x ∈ (applyCalls calls now (start_new_run topics today now)).topics_completed →
        x ∉ (applyCalls calls now (start_new_run topics today now)).topics_remaining)
    ∧ (∀ x, (x ∈ (applyCalls calls now (start_new_run topics today now)).topics_completed
        ∨ x ∈ (applyCalls calls now (start_new_run topics today now)).topics_remaining)
          ↔ x ∈ topics) := by
  have h := topicsInv_applyCalls topics now calls (start_new_run topics today now)
    (topicsInv_start topics today now hnd) hcalls
  exact ⟨h.1, h.2.1⟩

/-- C4 witness: two topics, one marked with a tweet, one exhausted empty. -/
theorem claim_c4_witness :
    (∀ x, x ∈ (applyCalls [("a", [mkTweet 1 2 3]), ("b", [])] "ts"
          (start_new_run ["a", "b"] "20251012" "ts")).topics_completed →
        x ∉ (applyCalls [("a", [mkTweet 1 2 3]), ("b", [])] "ts"
          (start_new_run ["a", "b"] "20251012" "ts")).topics_remaining)
    ∧ (∀ x, (x ∈ (applyCalls [("a", [mkTweet 1 2 3]), ("b", [])] "ts"
          (start_new_run ["a", "b"] "20251012" "ts")).topics_completed
        ∨ x ∈ (applyCalls [("a", [mkTweet 1 2 3]), ("b", [])] "ts"
          (start_new_run ["a", "b"] "20251012" "ts")).topics_remaining)
          ↔ x ∈ ["a", "b"]) :=
  claim_c4_amended ["a", "b"] "20251012" "ts" [("a", [mkTweet 1 2 3]), ("b", [])]
    (by decide) (by decide)

/-- C4 counterexample: with the duplicated topic list `["a", "a"]` a
single completed call leaves `a` in both lists, so the claimed
disjointness fails as stated. -/
theorem claim_c4_counterexample :
    "a" ∈ dupRunState.topics_completed ∧ "a" ∈ dupRunState.topics_remaining := by
  constructor <;> decide

/-- Helper: the worker slots of batch `k` match the spec formula
`(k * batch_size + i) mod active_count`. -/
theorem batchSlots_formula (wb ts k : Nat) :
    batchSlots wb ts k = (List.range wb).map (fun i => (k * wb + i) % ts) := by
  simp [batchSlots, Nat.mod_add_mod]

/-- Helper: batch `j` of the schedule starting at batch number `k` uses
the slots of batch `k + j` and the `j`-th chunk of topics. -/
theorem scheduleAux_get (wb ts : Nat) (hwb : 1 ≤ wb) :
    ∀ (n : Nat) (rem : List String), rem.length ≤ n →
      ∀ (k j : Nat), j < (scheduleAux wb ts k rem).length →
        (scheduleAux wb ts k rem).get? j =
          some (batchSlots wb ts (k + j), (rem.drop (j * wb)).take wb) := by
  intro n
  induction n with
  | zero =>
    intro rem hle k j hj
    rw [List.length_eq_zero.mp (Nat.le_zero.mp hle)] at hj
    simp [scheduleAux] at hj
  | succ n ih =>
    intro rem hle k j hj
    match rem with
    | [] => simp [scheduleAux] at hj
    | t :: rest =>
      rw [show scheduleAux wb ts k (t :: rest)
            = (batchSlots wb ts k, (t :: rest).take wb)
              :: scheduleAux wb ts (k + 1) (rest.drop (wb - 1)) from
          by rw [scheduleAux.eq_def]] at hj ⊢
      match j with
      | 0 => simp
      | j' + 1 =>
        have hj' : j' < (scheduleAux wb ts (k + 1) (rest.drop (wb - 1))).length := by
          simpa using hj
        have hrest : (rest.drop (wb - 1)).length ≤ n := by
          have := Nat.le_of_succ_le_succ (by simpa using hle)
          simp only [List.length_drop]
          omega
        rw [List.get?_cons_succ]
        rw [ih (rest.drop (wb - 1)) hrest (k + 1) j' hj']
        have hk : k + 1 + j' = k + (j' + 1) := by omega
        have hoff : (j' + 1) * wb = j' * wb + (wb - 1) + 1 := by
          rw [Nat.succ_mul]
          omega
        have hdrop : (rest.drop (wb - 1)).drop (j' * wb)
            = (t :: rest).drop ((j' + 1) * wb) := by
          rw [List.drop_drop, hoff, List.drop_succ_cons]
          congr 1
          omega
        rw [hk, hdrop]

/-- C6 (amended: requires at least one active worker identity; a reported
count of zero makes the loop raise `ZeroDivisionError` instead). A
missing report defaults to one identity, and with `active_count ≥ 1`
batch `k` takes the `k`-th chunk of `min(active_count, 2)` topics using
slots `[(k * batch_size + i) mod active_count for i in range(batch_size)]`. -/
theorem claim_c6_amended :
    (∀ rem, incrementalBatches none rem = incrementalBatches (some 1) rem)
    ∧ ∀ (sa : Option Nat) (remaining : List String), remaining ≠ [] →
        1 ≤ sa.getD 1 →
        ∃ bs, incrementalBatches sa remaining = .ok bs
          ∧ ∀ (j : Nat), j < bs.length →
              bs.get? j =
                some ((List.range (min (sa.getD 1) 2)).map
                    (fun i => (j * min (sa.getD 1) 2 + i) % sa.getD 1),
                 (remaining.drop (j * min (sa.getD 1) 2)).take (min (sa.getD 1) 2)) := by
  constructor
  · intro rem; rfl
  · intro sa remaining hne hac
    have hac0 : sa.getD 1 ≠ 0 := by omega
    refine ⟨scheduleAux (min (sa.getD 1) 2) (sa.getD 1) 0 remaining, ?_, ?_⟩
    · simp [incrementalBatches, hne, hac0]
    · intro j hj
      have hwb : 1 ≤ min (sa.getD 1) 2 := by omega
      rw [scheduleAux_get (min (sa.getD 1) 2) (sa.getD 1) hwb remaining.length
            remaining le_rfl 0 j hj]
      rw [batchSlots_formula]
      simp

/-- C6 witness: five active identities and five topics give rotating slot
pairs per batch. -/
theorem claim_c6_witness :
    ∃ bs, incrementalBatches (some 5) ["a", "b", "c", "d", "e"] = .ok bs
      ∧ ∀ (j : Nat), j < bs.length →
          bs.get? j =
            some ((List.range (min ((some 5 : Option Nat).getD 1) 2)).map
                (fun i => (j * min ((some 5 : Option Nat).getD 1) 2 + i)
                  % (some 5 : Option Nat).getD 1),
             ((["a", "b", "c", "d", "e"] : List String).drop
                (j * min ((some 5 : Option Nat).getD 1) 2)).take
                (min ((some 5 : Option Nat).getD 1) 2)) :=
  claim_c6_amended.2 (some 5) ["a", "b", "c", "d", "e"] (by decide) (by decide)

/-- C6 counterexample: when the collaborator reports zero active
identities for a non-empty topic list, the loop raises
`ZeroDivisionError` instead of producing round-robin batches. -/
theorem claim_c6_counterexample :
    incrementalBatches (some 0) ["a"] = .error "ZeroDivisionError" := rfl

/-- Helper: inserting a tweet into a list moves it past strictly higher
scores only, so score-level filters see it prepended or untouched. -/
theorem filter_orderedInsert (s : Int) (x : ScrapedTweet) (l : List ScrapedTweet) :
    (List.orderedInsert engGE x l).filter (fun t => decide (engagement t = s))
      = if engagement x = s
        then x :: l.filter (fun t => decide (engagement t = s))
        else l.filter (fun t => decide (engagement t = s)) := by
  induction l with
  | nil =>
    simp only [List.orderedInsert, List.filter]
    by_cases h : engagement x = s <;> simp [h]
  | cons y ys ih =>
    simp only [List.orderedInsert]
    by_cases hxy : engGE x y
    · rw [if_pos hxy]
      by_cases hx : engagement x = s <;> simp [List.filter_cons, hx]
    · rw [if_neg hxy]
      have hlt : engagement x < engagement y := not_le.mp hxy
      by_cases hy : engagement y = s
      · have hx : ¬ engagement x = s := fun hx => ne_of_lt hlt (hx.trans hy.symm)
        simp [List.filter_cons, hy, hx, ih]
      · simp only [List.filter_cons]
        rw [ih]
        by_cases hx : engagement x = s <;> simp [hx, hy]

/-- Helper: the engagement sort is stable — every score class keeps its
original relative order. -/
theorem filter_sortByEngagement (s : Int) (l : List ScrapedTweet) :
    (sortByEngagement l).filter (fun t => decide (engagement t = s))
      = l.filter (fun t => decide (engagement t = s)) := by
  induction l with
  | nil => rfl
  | cons x xs ih =>
    simp only [sortByEngagement, List.insertionSort] at ih ⊢
    rw [filter_orderedInsert]
    by_cases hx : engagement x = s <;> simp [List.filter_cons, hx, ih]

/-- C7. The selector sorts by engagement descending (a permutation sorted
under `engGE`, stable on every score class), takes exactly
`min top_n len` items, returns nothing and performs no reply fetch for an
empty input, and on scores `[10, 30, 30, 5]` with `top_n = 2` picks the
two score-30 items in their original relative order. -/
theorem claim_c7 :
    (∀ (tweets : List ScrapedTweet) (top_n : Nat),
        topTweets tweets top_n = (sortByEngagement tweets).take top_n
        ∧ (topTweets tweets top_n).length = min top_n tweets.length
        ∧ List.Sorted engGE (sortByEngagement tweets)
        ∧ (sortByEngagement tweets).Perm tweets
        ∧ ∀ s : Int, (sortByEngagement tweets).filter (fun t => decide (engagement t = s))
            = tweets.filter (fun t => decide (engagement t = s)))
    ∧ (∀ (fetch : Int → List ScrapedTweet) (top_n : Nat),
        topTweets [] top_n = []
        ∧ fetch_replies_for_top_tweets fetch [] top_n = [])
    ∧ topTweets [mkTweet 1 10 0, mkTweet 2 30 0, mkTweet 3 15 15, mkTweet 4 5 0] 2
        = [mkTweet 2 30 0, mkTweet 3 15 15] := by
  refine ⟨?_, ?_, ?_⟩
  · intro tweets top_n
    have htake : topTweets tweets top_n = (sortByEngagement tweets).take top_n := by
      match tweets with
      | [] => simp [topTweets, sortByEngagement, List.insertionSort]
      | t :: ts => simp [topTweets]
    refine ⟨htake, ?_, ?_, ?_, ?_⟩
    · rw [htake, List.length_take]
      simp [sortByEngagement, List.length_insertionSort]
    · exact List.sorted_insertionSort engGE tweets
    · exact List.perm_insertionSort engGE tweets
    · exact fun s => filter_sortByEngagement s tweets
  · intro fetch top_n
    exact ⟨rfl, rfl⟩
  · decide

/-- C1. On the spec's happy path (fresh run, topics `a` and `b`, three
tweets each, replies and storage available) the pipeline does not return
success: the storage step's call to the nonexistent attribute
`_deserialize_tweet` raises, the generic handler records the error and
returns `False`, and the checkpoint file is left in place instead of
being cleared. -/
theorem claim_c1 :
    (run_pipeline happyEnv).result = Except.ok false
    ∧ (run_pipeline happyEnv).file.isSome = true
    ∧ ((run_pipeline happyEnv).file.map PipelineState.error)
        = some "CheckpointManager object has no attribute _deserialize_tweet" := by
  refine ⟨?_, ?_, ?_⟩ <;> rfl

/-- Helper: the topic loop never deletes the checkpoint file. -/
theorem runTopics_file_isSome (env : Env) :
    ∀ (topics : List String) (file : Option PipelineState) (st : PipelineState)
      (acc : List ScrapedTweet), file.isSome = true →
      (runTopics env file st acc topics).1.isSome = true := by
  intro topics
  induction topics with
  | nil => intro file st acc h; simpa [runTopics] using h
  | cons t rest ih =>
    intro file st acc h
    simp only [runTopics]
    split
    · simpa using h
    · exact ih _ _ _ (by simp)

/-- Helper: step 1 never deletes the checkpoint file. -/
theorem step1_file_isSome (env : Env) (file : Option PipelineState)
    (st : PipelineState) (h : file.isSome = true) :
    (step1 env file st).1.isSome = true := by
  rcases hr : runTopics env file st []
      (env.broadTopics.filter (fun t => t ∉ st.topics_completed)) with ⟨file', st', r⟩
  have hrt := runTopics_file_isSome env
    (env.broadTopics.filter (fun t => t ∉ st.topics_completed)) file st [] h
  rw [hr] at hrt
  unfold step1
  rcases r with e | tws <;> rcases hg : get_broad_tweets st with _ | tws2 <;>
    rcases ha : env.accountStats with e2 | ⟨activeOpt, totalOpt⟩ <;>
      simp only [hr, hg, ha] <;> split_ifs <;> simp_all

/-- Helper: step 3 never deletes the checkpoint file. -/
theorem step3_file_isSome (env : Env) (file : Option PipelineState)
    (st : PipelineState) (replyTweets : List ScrapedTweet)
    (h : file.isSome = true) :
    (step3 env file st replyTweets).1.isSome = true := by
  unfold step3
  rcases hb : env.storeTweets replyTweets "replies" with e | n <;>
    rcases hc : env.completeRun with e2 | n2 <;>
      rcases hg : env.getRunCount with e3 | n3 <;>
        simp only [hb, hc, hg] <;> split_ifs <;> simp_all

/-- Helper: when the body of the `try` block ends in an exception, the
checkpoint file is still present (only the success path clears it). -/
theorem runBody_error_file_isSome (env : Env) (file : Option PipelineState)
    (st : PipelineState) (h : file.isSome = true) :
    ∀ f m e, runBody env file st = ((f, m), .error e) → f.isSome = true := by
  intro f m e hbody
  have h1 := step1_file_isSome env file st h
  rcases hs1 : step1 env file st with ⟨file1, st1, r1⟩
  rw [hs1] at h1
  simp only at h1
  unfold runBody at hbody
  rw [hs1] at hbody
  rcases r1 with e1 | broad
  · simp only [Prod.mk.injEq] at hbody
    obtain ⟨⟨hf, _⟩, _⟩ := hbody
    exact hf ▸ h1
  · by_cases hb0 : broad = []
    · simp [hb0] at hbody
    · simp only [hb0, if_neg, if_false] at hbody
      rcases hf2 : fetchRepliesLoop env (topTweets broad env.topN) [] with e2 | replies <;>
        rw [hf2] at hbody
      · simp only [Prod.mk.injEq] at hbody
        obtain ⟨⟨hf, _⟩, _⟩ := hbody
        exact hf ▸ h1
      · dsimp only at hbody
        have h3 := step3_file_isSome env file1 st1 replies h1
        rcases hs3 : step3 env file1 st1 replies with ⟨file3, st3, r3⟩
        rw [hs3] at h3 hbody
        simp only at h3
        rcases r3 with e3 | count
        · simp only [Prod.mk.injEq] at hbody
          obtain ⟨⟨hf, _⟩, _⟩ := hbody
          exact hf ▸ h3
        · simp at hbody

/-- C8. Operator interruption anywhere in the run is re-raised — before
the `try` block it propagates unhandled, inside it the dedicated handler
re-raises instead of converting it to a failure result — and in both
cases the checkpoint file survives, so the persisted progress stays
available for resume. -/
theorem claim_c8 (env : Env) :
    (∀ r, preBody env = .error r → r.result = Except.error Exc.interrupt →
        run_pipeline env = r ∧ r.file.isSome = true)
    ∧ (∀ file st f m, preBody env = .ok (file, st) →
        runBody env file st = ((f, m), Except.error Exc.interrupt) →
        run_pipeline env = ⟨f, Except.error Exc.interrupt⟩ ∧ f.isSome = true) := by
  constructor
  · intro r hpre hint
    refine ⟨by simp [run_pipeline, hpre], ?_⟩
    unfold preBody at hpre
    split at hpre
    · cases hpre
      simp at hint
    · split at hpre
      · cases hpre; simp
      · split at hpre
        · cases hpre; simp
        · split at hpre
          · cases hpre; simp
          · cases hpre
          · split at hpre
            · cases hpre; simp at hint
            · cases hpre
  · intro file st f m hpre hbody
    have hfile : file.isSome = true := by
      unfold preBody at hpre
      split at hpre
      · cases hpre
      · split at hpre
        · cases hpre
        · split at hpre
          · cases hpre
          · split at hpre
            · cases hpre
            · cases hpre; simp
            · split at hpre
              · cases hpre
              · cases hpre; simp
    refine ⟨?_, runBody_error_file_isSome env file st hfile f m _ hbody⟩
    simp [run_pipeline, hpre, hbody, handleBody]

/-- C8 witness: an interrupt during the first reply fetch of the happy
path is re-raised with the checkpoint file still present. -/
theorem claim_c8_witness :
    (run_pipeline interruptEnv).result = Except.error Exc.interrupt
    ∧ (run_pipeline interruptEnv).file.isSome = true := by
  obtain ⟨h1, h2⟩ := (claim_c8 interruptEnv).2 _ _ _ _ rfl rfl
  rw [h1]
  exact ⟨rfl, h2⟩

end LeOpinion
